import Mathlib

/-!
Verification of `examples/ejemplo-mlflow.ipynb`.

The repository consists of a single instructional Jupyter notebook that
calls mlflow around scikit-learn clustering (KMeans, DBSCAN) on the Iris
dataset.  The notebook is pure straight-line glue code, so we embed it
deeply: each code cell is transcribed statement by statement into the
`StmtCore`/`Stmt`/`Cell` syntax below, and the claims become properties of
that concrete transcription plus a small oracle-parameterised execution
semantics (library calls may raise, straight-line code propagates).

The `StmtCore` type also contains constructors for Python constructs the
notebook could have used but does not (file writes, thread/process/coroutine
creation, own arithmetic on scores); several claims assert their absence,
and those constructors keep the assertions from being vacuous.
-/

namespace EjemploMlflow

/-- An exact decimal literal `mant · 10^(-exp10)` exactly as written in the
source; `0.5` is `⟨5, 1⟩`. -/
structure DecLit where
  mant : Int
  exp10 : Nat
  deriving DecidableEq, Repr

/-- A Python scalar value as it appears literally in the notebook
(`2`, `3`, `5`, `0.5`, string literals). Float literals are exact
decimals. -/
inductive PyVal where
  | int (n : Int)
  | float (d : DecLit)
  | str (s : String)
  deriving DecidableEq, Repr

/-- Constructor arguments of `sklearn.cluster.KMeans` as used by the
notebook: `n_clusters`, and the optional seed `random_state` (a seed, not a
model hyperparameter). -/
structure KMeansArgs where
  n_clusters : Nat
  random_state : Option Nat
  deriving DecidableEq, Repr

/-- Constructor arguments of `sklearn.cluster.DBSCAN` as used by the
notebook: `eps` and `min_samples`. -/
structure DBSCANArgs where
  eps : DecLit
  min_samples : Nat
  deriving DecidableEq, Repr

/-- A clustering model constructed by the notebook. -/
inductive Model where
  | kmeans (args : KMeansArgs)
  | dbscan (args : DBSCANArgs)
  deriving DecidableEq, Repr

/-- The clustering-quality score functions imported from `sklearn.metrics`
(cell 1 of the notebook imports exactly these two). -/
inductive ScoreFn where
  | silhouette
  | daviesBouldin
  deriving DecidableEq, Repr

/-- A simple (non-compound) Python statement.  The first group transcribes
the statements that actually occur in the notebook; the second group
(`writeFile`, `spawnThread`, `spawnProcess`, `spawnCoroutine`,
`assignArith`) are constructs Python offers that the notebook never uses —
they exist so that claims of their absence are about a language that could
express them. -/
inductive StmtCore where
  /-- `import mlflow` / `import numpy as np` -/
  | importLib (module : String)
  /-- `from <module> import <names>` -/
  | importFrom (module : String) (names : List String)
  /-- `db = load_iris()` -/
  | loadIris (target : String)
  /-- `<target> = <obj>.<attr>`, e.g. `features = db.data`,
      `cluster_labels = trained_model.labels_` -/
  | assignAttr (target obj attr : String)
  /-- `mlflow.autolog()` -/
  | autolog
  /-- `<target> = KMeans(...)` or `<target> = DBSCAN(...)` -/
  | assignModel (target : String) (m : Model)
  /-- `<modelVar>.fit_predict(<dataVar>)` (result discarded / displayed) -/
  | fitPredict (modelVar dataVar : String)
  /-- `<target> = <modelVar>.fit(<dataVar>)` -/
  | fitModel (target modelVar dataVar : String)
  /-- `<target> = silhouette_score(<dataVar>, <labelsVar>)` or
      `<target> = davies_bouldin_score(<dataVar>, <labelsVar>)` -/
  | computeScore (target : String) (f : ScoreFn) (dataVar labelsVar : String)
  /-- `<target> = '<value>'` -/
  | assignStr (target value : String)
  /-- `<target> = mlflow.create_experiment(name=<nameVar>)` -/
  | createExperiment (target nameVar : String)
  /-- `mlflow.log_param('<key>', <value>)` -/
  | logParam (key : String) (value : PyVal)
  /-- `mlflow.log_metric('<key>', <valueVar>)` -/
  | logMetric (key : String) (valueVar : String)
  /-- `mlflow.sklearn.log_model(<modelVar>, "<artifactName>", input_example=...)` -/
  | logModel (modelVar artifactName : String) (inputExampleVar : Option String)
  /-- `input_example = np.array([<dataVar>[0]])` -/
  | inputExampleRow (target dataVar : String)
  /-- `mlflow.end_run()` -/
  | endRun
  /-- IPython shell escape `!<cmd>`, given as its whitespace-separated
      tokens; the kernel runs the command synchronously in a child
      process. -/
  | shell (argv : List String)
  /-- direct file output from notebook code (`open(...).write`, `np.save`, …);
      never used by this notebook -/
  | writeFile (path : String)
  /-- `threading.Thread(...).start()`; never used by this notebook -/
  | spawnThread
  /-- `multiprocessing.Process(...).start()` / `subprocess.Popen` from Python
      code; never used by this notebook -/
  | spawnProcess
  /-- `asyncio` task / coroutine creation; never used by this notebook -/
  | spawnCoroutine
  /-- `<target> = <lhs> <op> <rhs>`: a score computed by the notebook's own
      arithmetic; never used by this notebook -/
  | assignArith (target lhs rhs : String)
  deriving DecidableEq, Repr

/-- A notebook statement: either a simple statement or a `try/except` with a
handler (a compound construct Python offers; this notebook contains none). -/
inductive Stmt where
  | simple (s : StmtCore)
  | tryExcept (body handler : List StmtCore)
  deriving DecidableEq, Repr

/-- A code cell: either plain statements, or statements followed by a
`with mlflow.start_run(experiment_id=..., run_name=<runName>): <body>` block. -/
inductive Cell where
  | plain (stmts : List Stmt)
  | runBlock (pre : List Stmt) (runName : String) (body : List Stmt)
  deriving DecidableEq, Repr

/-! ## Transcription of the notebook's code cells

The notebook has eight code cells; markdown cells carry no code.  Numbering
below is by code cell in order of appearance. -/

/-- Code cell 1: the imports. -/
def cell1 : Cell := .plain [
  .simple (.importLib "mlflow"),
  .simple (.importLib "numpy"),
  .simple (.importFrom "sklearn.datasets" ["load_iris"]),
  .simple (.importFrom "sklearn.cluster" ["DBSCAN", "KMeans"]),
  .simple (.importFrom "sklearn.metrics" ["silhouette_score", "davies_bouldin_score"])]

/-- Code cell 2: `db = load_iris(); features = db.data; target = db.target`. -/
def cell2 : Cell := .plain [
  .simple (.loadIris "db"),
  .simple (.assignAttr "features" "db" "data"),
  .simple (.assignAttr "target" "db" "target")]

/-- Code cell 3: `mlflow.autolog()`, then DBSCAN(eps=0.5, min_samples=5)
fit on the features. -/
def cell3 : Cell := .plain [
  .simple .autolog,
  .simple (.assignModel "dbscan" (.dbscan ⟨⟨5, 1⟩, 5⟩)),
  .simple (.fitPredict "dbscan" "features")]

/-- Code cell 4 (the autolog KMeans cell): `kmeans = KMeans(n_clusters=3,
random_state=42); kmeans.fit_predict(features)`. -/
def cell4 : Cell := .plain [
  .simple (.assignModel "kmeans" (.kmeans ⟨3, some 42⟩)),
  .simple (.fitPredict "kmeans" "features")]

/-- Body of the `with mlflow.start_run(..., run_name="Kmeans - K=2")` block. -/
def runBodyK2 : List Stmt := [
  .simple (.assignModel "modelo_clusters" (.kmeans ⟨2, none⟩)),
  .simple (.fitModel "trained_model" "modelo_clusters" "features"),
  .simple (.assignAttr "cluster_labels" "trained_model" "labels_"),
  .simple (.computeScore "score" .silhouette "features" "cluster_labels"),
  .simple (.logParam "value_of_k" (.int 2)),
  .simple (.logMetric "silhoutte_score" "score"),
  .simple (.inputExampleRow "input_example" "features"),
  .simple (.logModel "trained_model" "Clustering_Model" (some "input_example")),
  .simple .endRun]

/-- Code cell 5: creates the named experiment `Clustering-Ejemplos` and runs
the `Kmeans - K=2` block. -/
def cell5 : Cell := .runBlock [
  .simple (.assignStr "exp_name" "Clustering-Ejemplos"),
  .simple (.createExperiment "exp_id" "exp_name")]
  "Kmeans - K=2" runBodyK2

/-- Body of the `with mlflow.start_run(..., run_name="Kmeans - K=3")` block. -/
def runBodyK3 : List Stmt := [
  .simple (.assignModel "modelo_clusters" (.kmeans ⟨3, none⟩)),
  .simple (.fitModel "trained_model" "modelo_clusters" "features"),
  .simple (.assignAttr "cluster_labels" "trained_model" "labels_"),
  .simple (.computeScore "score" .silhouette "features" "cluster_labels"),
  .simple (.computeScore "score_2" .daviesBouldin "features" "cluster_labels"),
  .simple (.logParam "value_of_k" (.int 3)),
  .simple (.logMetric "silhoutte_score" "score"),
  .simple (.logMetric "davies_bouldin_score" "score_2"),
  .simple (.inputExampleRow "input_example" "features"),
  .simple (.logModel "trained_model" "Clustering_Model" (some "input_example")),
  .simple .endRun]

/-- Code cell 6: the `Kmeans - K=3` run block. -/
def cell6 : Cell := .runBlock [] "Kmeans - K=3" runBodyK3

/-- Body of the `with mlflow.start_run(..., run_name="DBSCAN")` block. -/
def runBodyDBSCAN : List Stmt := [
  .simple (.assignModel "modelo_clusters" (.dbscan ⟨⟨5, 1⟩, 5⟩)),
  .simple (.fitModel "trained_model" "modelo_clusters" "features"),
  .simple (.assignAttr "cluster_labels" "trained_model" "labels_"),
  .simple (.computeScore "score" .silhouette "features" "cluster_labels"),
  .simple (.logParam "min_samples" (.int 5)),
  .simple (.logParam "eps" (.float ⟨5, 1⟩)),
  .simple (.logMetric "silhoutte_score" "score"),
  .simple (.inputExampleRow "input_example" "features"),
  .simple (.logModel "trained_model" "Clustering_Model" (some "input_example")),
  .simple .endRun]

/-- Code cell 7: the `DBSCAN` run block. -/
def cell7 : Cell := .runBlock [] "DBSCAN" runBodyDBSCAN

/-- Code cell 8: `!mlflow ui` (shell escape, no port argument). -/
def cell8 : Cell := .plain [.simple (.shell ["mlflow", "ui"])]

/-- The notebook: its eight code cells in order. -/
def notebook : List Cell := [cell1, cell2, cell3, cell4, cell5, cell6, cell7, cell8]

/-! ## Flattening helpers -/

/-- The simple statements contained in a statement, in execution order. -/
def Stmt.cores : Stmt → List StmtCore
  | .simple s => [s]
  | .tryExcept body handler => body ++ handler

/-- The simple statements contained in a statement list. -/
def stmtsCores (l : List Stmt) : List StmtCore := (l.map Stmt.cores).flatten

/-- The simple statements contained in a cell, in execution order. -/
def Cell.cores : Cell → List StmtCore
  | .plain l => stmtsCores l
  | .runBlock pre _ body => stmtsCores pre ++ stmtsCores body

/-- All simple statements of the notebook in execution order. -/
def notebookCores : List StmtCore := (notebook.map Cell.cores).flatten

/-- The named experiment runs the notebook starts, as (run name, block body)
pairs, in order. -/
def namedRuns (cells : List Cell) : List (String × List Stmt) :=
  cells.filterMap fun c => match c with
    | .plain _ => none
    | .runBlock _ name body => some (name, body)

/-! ## Statement classifiers -/

/-- Is this a `mlflow.log_param` call? -/
def isLogParam : StmtCore → Bool
  | .logParam _ _ => true
  | _ => false

/-- Is this a `mlflow.log_metric` call? -/
def isLogMetric : StmtCore → Bool
  | .logMetric _ _ => true
  | _ => false

/-- Is this a `mlflow.sklearn.log_model` call? -/
def isLogModel : StmtCore → Bool
  | .logModel _ _ _ => true
  | _ => false

/-- Is this any of the three mlflow logging calls (a "logged value")? -/
def isLogging (s : StmtCore) : Bool := isLogParam s || isLogMetric s || isLogModel s

/-- Is this `mlflow.end_run()`? -/
def isEndRun : StmtCore → Bool
  | .endRun => true
  | _ => false

/-- Is this a data-loading statement (`load_iris()`)? -/
def isLoadData : StmtCore → Bool
  | .loadIris _ => true
  | _ => false

/-- Is this a model-fitting call (`.fit` or `.fit_predict`)? -/
def isFitStmt : StmtCore → Bool
  | .fitModel _ _ _ => true
  | .fitPredict _ _ => true
  | _ => false

/-- Is this a clustering-score computation (library metric call)? -/
def isComputeScore : StmtCore → Bool
  | .computeScore _ _ _ _ => true
  | _ => false

/-- Is this an IPython shell escape? -/
def isShell : StmtCore → Bool
  | .shell _ => true
  | _ => false

/-- Is this a direct file write from notebook code? -/
def isWriteFile : StmtCore → Bool
  | .writeFile _ => true
  | _ => false

/-- Is this the notebook's own arithmetic on values? -/
def isArith : StmtCore → Bool
  | .assignArith _ _ _ => true
  | _ => false

/-- Does this statement create a thread? -/
def createsThread : StmtCore → Bool
  | .spawnThread => true
  | _ => false

/-- Does this statement create a coroutine / async task? -/
def createsCoroutine : StmtCore → Bool
  | .spawnCoroutine => true
  | _ => false

/-- Does this statement create an operating-system process?  A shell escape
`!cmd` does: the kernel runs `cmd` in a child process (synchronously). -/
def createsProcess : StmtCore → Bool
  | .shell _ => true
  | .spawnProcess => true
  | _ => false

/-- Is this a `try/except` statement? -/
def Stmt.isTry : Stmt → Bool
  | .tryExcept _ _ => true
  | _ => false

/-- Is this a simple (non-compound) statement? -/
def Stmt.isSimple : Stmt → Bool
  | .simple _ => true
  | _ => false

/-- All statements of the notebook, compound ones included. -/
def notebookStmts : List Stmt :=
  (notebook.map fun c => match c with
    | .plain l => l
    | .runBlock pre _ body => pre ++ body).flatten

/-- How many `try/except` statements the notebook contains. -/
def notebookTryCount : Nat := notebookStmts.countP fun s => s.isTry

/-! ## Execution semantics

Library calls may raise.  An `Oracle` assigns to each simple statement the
outcome of its underlying library call (`none` = succeeds, `some e` =
raises `e`); execution is straight-line, except that a `try/except`
statement would run its handler when its body raises. -/

/-- A Python exception, as raised by a library call. -/
inductive PyError where
  | attributeError (msg : String)
  | connectionError (msg : String)
  | otherError (msg : String)
  deriving DecidableEq, Repr

/-- Outcome of each library call underlying a simple statement. -/
def Oracle : Type := StmtCore → Option PyError

/-- Execute one simple statement under an oracle. -/
def stepCore (o : Oracle) (s : StmtCore) : Except PyError Unit :=
  match o s with
  | some e => .error e
  | none => .ok ()

/-- Execute simple statements in order; the first raised exception aborts
the rest. -/
def execCores (o : Oracle) : List StmtCore → Except PyError Unit
  | [] => .ok ()
  | s :: rest =>
    match stepCore o s with
    | .error e => .error e
    | .ok _ => execCores o rest

/-- Execute a statement: a `try/except` statement runs its handler when the
body raises; a simple statement just runs its library call. -/
def execStmt (o : Oracle) : Stmt → Except PyError Unit
  | .simple s => stepCore o s
  | .tryExcept body handler =>
    match execCores o body with
    | .error _ => execCores o handler
    | .ok _ => .ok ()

/-- Execute a statement list in order. -/
def execStmts (o : Oracle) : List Stmt → Except PyError Unit
  | [] => .ok ()
  | s :: rest =>
    match execStmt o s with
    | .error e => .error e
    | .ok _ => execStmts o rest

/-- Execute a cell.  A `with mlflow.start_run(...)` block does not swallow
exceptions: the context manager ends the run and re-raises. -/
def execCell (o : Oracle) : Cell → Except PyError Unit
  | .plain l => execStmts o l
  | .runBlock pre _ body =>
    match execStmts o pre with
    | .error e => .error e
    | .ok _ => execStmts o body

/-- Execute cells in order. -/
def execCells (o : Oracle) : List Cell → Except PyError Unit
  | [] => .ok ()
  | c :: cs =>
    match execCell o c with
    | .error e => .error e
    | .ok _ => execCells o cs

/-- Execute the whole notebook. -/
def execNotebook (o : Oracle) : Except PyError Unit := execCells o notebook

/-- The exception raised by the first failing library call of a statement
list, if any. -/
def firstFailure (o : Oracle) : List StmtCore → Option PyError
  | [] => none
  | s :: rest =>
    match o s with
    | some e => some e
    | none => firstFailure o rest

/-! ## Sequencing lemmas for the semantics -/

theorem execCores_append (o : Oracle) (l1 l2 : List StmtCore) :
    execCores o (l1 ++ l2) =
      match execCores o l1 with
      | .error e => .error e
      | .ok _ => execCores o l2 := by
  induction l1 with
  | nil => simp [execCores]
  | cons s rest ih =>
    simp only [List.cons_append, execCores]
    cases stepCore o s <;> simp [ih]

theorem execStmts_eq_execCores (o : Oracle) (l : List Stmt)
    (h : l.all Stmt.isSimple = true) :
    execStmts o l = execCores o (stmtsCores l) := by
  induction l with
  | nil => simp [execStmts, stmtsCores, execCores]
  | cons s rest ih =>
    simp only [List.all_cons, Bool.and_eq_true] at h
    obtain ⟨hs, hrest⟩ := h
    cases s with
    | tryExcept body handler => simp [Stmt.isSimple] at hs
    | simple c =>
      simp only [stmtsCores, List.map_cons, List.flatten_cons, Stmt.cores]
      rw [List.singleton_append]
      simp only [execStmts, execStmt, execCores]
      cases stepCore o c with
      | error e => rfl
      | ok _ => exact ih hrest

theorem execCell_eq_execCores (o : Oracle) (c : Cell)
    (h : (match c with
          | .plain l => l
          | .runBlock pre _ body => pre ++ body).all Stmt.isSimple = true) :
    execCell o c = execCores o c.cores := by
  cases c with
  | plain l => simpa [execCell, Cell.cores] using execStmts_eq_execCores o l h
  | runBlock pre name body =>
    simp only [List.all_append, Bool.and_eq_true] at h
    obtain ⟨hpre, hbody⟩ := h
    simp only [execCell, Cell.cores, execCores_append,
      execStmts_eq_execCores o pre hpre, execStmts_eq_execCores o body hbody]

theorem execCells_eq_execCores (o : Oracle) (cs : List Cell)
    (h : (cs.map fun c => match c with
          | .plain l => l
          | .runBlock pre _ body => pre ++ body).all (fun l => l.all Stmt.isSimple) = true) :
    execCells o cs = execCores o ((cs.map Cell.cores).flatten) := by
  induction cs with
  | nil => simp [execCells, execCores]
  | cons c rest ih =>
    simp only [List.map_cons, List.all_cons, Bool.and_eq_true] at h
    obtain ⟨hc, hrest⟩ := h
    simp only [execCells, List.map_cons, List.flatten_cons, execCores_append]
    rw [execCell_eq_execCores o c hc]
    cases execCores o c.cores with
    | error e => rfl
    | ok _ => exact ih hrest

/-- Execution of the notebook is the straight-line execution of its simple
statements in cell order. -/
theorem execNotebook_eq_execCores (o : Oracle) :
    execNotebook o = execCores o notebookCores :=
  execCells_eq_execCores o notebook (by decide)

theorem execCores_of_firstFailure (o : Oracle) (e : PyError) :
    ∀ l : List StmtCore, firstFailure o l = some e → execCores o l = .error e := by
  intro l
  induction l with
  | nil => intro h; simp [firstFailure] at h
  | cons s rest ih =>
    intro h
    simp only [firstFailure] at h
    simp only [execCores, stepCore]
    cases hs : o s with
    | some e2 => rw [hs] at h; simp at h; simp [h]
    | none => rw [hs] at h; exact ih h

/-! ## Per-run and per-notebook observations -/

/-- The simple statements of a run-block body, in order. -/
def bodyCores (body : List Stmt) : List StmtCore := stmtsCores body

/-- The body records at least one parameter, at least one metric and exactly
one model artifact strictly before the `mlflow.end_run()` call. -/
def recordsBeforeEnd (body : List Stmt) : Bool :=
  let pre := (bodyCores body).takeWhile fun s => !isEndRun s
  (pre.countP isLogParam != 0) && (pre.countP isLogMetric != 0) &&
  (pre.countP isLogModel == 1)

/-- Phase of a statement in the sequence load(1) → fit(2) → score(3) →
log(4); 0 for statements outside that sequence. -/
def seqPhase (s : StmtCore) : Nat :=
  if isLoadData s then 1
  else if isFitStmt s then 2
  else if isComputeScore s then 3
  else if isLogging s then 4
  else 0

/-- Is this list of phase numbers non-decreasing? -/
def phasesAscending : List Nat → Bool
  | [] => true
  | [_] => true
  | a :: b :: t => Nat.ble a b && phasesAscending (b :: t)

/-- The sequence of phases the body actually goes through. -/
def bodyPhases (body : List Stmt) : List Nat :=
  ((bodyCores body).map seqPhase).filter fun n => n != 0

/-- The reading of "follows the exact sequence: load the data, fit the
clustering model, compute a clustering score, then log exactly three
values": data is loaded in the block, the load/fit/score/log phases occur
in that order, and exactly three logging calls are made. -/
def followsLoadFitScoreLogThree (body : List Stmt) : Bool :=
  let ph := bodyPhases body
  phasesAscending ph && ph.contains 1 && ph.contains 2 && ph.contains 3 &&
  ((bodyCores body).countP isLogging == 3)

/-- The sequence each named run block actually follows: no data load inside
the block, fit before score(s) before logging calls, one or two scores, at
least one parameter, at least one metric, exactly one model artifact, and
three or four logging calls in total. -/
def blockFitScoreLogSeq (body : List Stmt) : Bool :=
  let cs := bodyCores body
  let ph := bodyPhases body
  (cs.countP isLoadData == 0) && phasesAscending ph &&
  ph.contains 2 && ph.contains 3 &&
  (cs.countP isComputeScore != 0) && Nat.ble (cs.countP isComputeScore) 2 &&
  (cs.countP isLogParam != 0) && (cs.countP isLogMetric != 0) &&
  (cs.countP isLogModel == 1) &&
  Nat.ble 3 (cs.countP isLogging) && Nat.ble (cs.countP isLogging) 4

/-- The single `load_iris()` call occurs before every model-fitting call of
the notebook. -/
def loadBeforeAllFits : Bool :=
  match notebookCores.findIdx? isLoadData, notebookCores.findIdx? isFitStmt with
  | some i, some j => Nat.blt i j
  | _, _ => false

/-- The model constructed (and then fitted) in a run-block body. -/
def fittedModelOf (body : List Stmt) : Option Model :=
  ((bodyCores body).filterMap fun s => match s with
    | .assignModel _ m => some m
    | _ => none).head?

/-- The models fitted in the named runs, in run order. -/
def runModels : List Model :=
  (namedRuns notebook).filterMap fun r => fittedModelOf r.2

/-- The (key, value) pairs logged via `mlflow.log_param` in a body. -/
def loggedParamsOf (body : List Stmt) : List (String × PyVal) :=
  (bodyCores body).filterMap fun s => match s with
    | .logParam k v => some (k, v)
    | _ => none

/-- All `mlflow.log_param` keys of the notebook, in order. -/
def loggedParamKeys : List String :=
  notebookCores.filterMap fun s => match s with
    | .logParam k _ => some k
    | _ => none

/-- All `mlflow.log_param` values of the notebook, in order. -/
def loggedParamVals : List PyVal :=
  notebookCores.filterMap fun s => match s with
    | .logParam _ v => some v
    | _ => none

/-- Is the value a scalar (int or float)? -/
def isScalar : PyVal → Bool
  | .int _ => true
  | .float _ => true
  | .str _ => false

/-- The score functions the notebook calls, in order of occurrence. -/
def scoreFnsUsed : List ScoreFn :=
  notebookCores.filterMap fun s => match s with
    | .computeScore _ f _ _ => some f
    | _ => none

/-- The hyperparameters a constructed model holds (the `random_state` seed
of `KMeans` is a reproducibility seed, not a model hyperparameter). -/
def Model.hyperNames : Model → List String
  | .kmeans _ => ["n_clusters"]
  | .dbscan _ => ["eps", "min_samples"]

/-- All models the notebook constructs, in order. -/
def constructedModels : List Model :=
  notebookCores.filterMap fun s => match s with
    | .assignModel _ m => some m
    | _ => none

/-- Hyperparameter names held across every model the notebook constructs. -/
def heldHyperNames : List String :=
  (constructedModels.map Model.hyperNames).flatten

/-- Does this statement bind the variable `v`? -/
def bindsVar (v : String) : StmtCore → Bool
  | .loadIris t => t == v
  | .assignAttr t _ _ => t == v
  | .assignModel t _ => t == v
  | .fitModel t _ _ => t == v
  | .computeScore t _ _ _ => t == v
  | .assignStr t _ => t == v
  | .createExperiment t _ => t == v
  | .inputExampleRow t _ => t == v
  | .assignArith t _ _ => t == v
  | _ => false

/-- Every metric logged in the statement list takes its value from a library
score call on the features and the fitted labels.  `pre` holds the already
scanned statements, most recent first, so `pre.find?` is the most recent
binder of a variable. -/
def metricsFromLibScores : List StmtCore → List StmtCore → Bool
  | _, [] => true
  | pre, c :: rest =>
    (match c with
     | .logMetric _ v =>
       match pre.find? (bindsVar v) with
       | some (.computeScore t _ d l) =>
         t == v && d == "features" && l == "cluster_labels"
       | _ => false
     | _ => true) && metricsFromLibScores (c :: pre) rest

/-- The body binds `cluster_labels` from the fitted model's `labels_`
attribute, and `trained_model` from a `.fit(features)` call. -/
def labelsFromFit (body : List Stmt) : Bool :=
  ((bodyCores body).any fun s => match s with
    | .assignAttr t obj attr =>
      t == "cluster_labels" && obj == "trained_model" && attr == "labels_"
    | _ => false) &&
  ((bodyCores body).any fun s => match s with
    | .fitModel t _ d => t == "trained_model" && d == "features"
    | _ => false)

/-- The shell commands the notebook invokes (as token lists), in order. -/
def shellCmds : List (List String) :=
  notebookCores.filterMap fun s => match s with
    | .shell argv => some argv
    | _ => none

/-- Does the shell command pass a port argument (`-p`, `--port` or
`--port=<n>`)? -/
def hasPortArg (argv : List String) : Bool :=
  argv.any fun tok =>
    tok == "-p" || tok == "--port" || tok.toList.take 7 == "--port=".toList

/-- The statement creates no thread, no process and no coroutine. -/
def noConcurrencyOp (s : StmtCore) : Bool :=
  !(createsThread s || createsProcess s || createsCoroutine s)

/-- Does this statement log a metric under exactly this key? -/
def logsMetricKey (key : String) (s : StmtCore) : Bool :=
  match s with
  | .logMetric k _ => k == key
  | _ => false

/-- Some metric is logged under `key` and its value is the silhouette score
most recently computed by the library.  `pre` holds the already scanned
statements, most recent first. -/
def silhouetteLoggedAs (key : String) : List StmtCore → List StmtCore → Bool
  | _, [] => false
  | pre, c :: rest =>
    (match c with
     | .logMetric k v =>
       k == key &&
       (match pre.find? (bindsVar v) with
        | some (.computeScore _ f _ _) => f == ScoreFn.silhouette
        | _ => false)
     | _ => false) || silhouetteLoggedAs key (c :: pre) rest

/-- Do the logged parameters of a run coincide with the constructor
arguments of its model?  For KMeans the single logged parameter
`value_of_k` must equal `n_clusters`; for DBSCAN the logged `min_samples`
and `eps` must equal the constructor's values. -/
def paramsMatchModel (m : Model) (ps : List (String × PyVal)) : Bool :=
  match m, ps with
  | .kmeans a, [("value_of_k", .int k)] => k == (a.n_clusters : Int)
  | .dbscan a, [("min_samples", .int ms), ("eps", .float e)] =>
    ms == (a.min_samples : Int) && e == a.eps
  | _, _ => false

/-- The `random_state` seeds of the KMeans models fitted in the named runs. -/
def namedRunKMeansSeeds : List (Option Nat) :=
  (namedRuns notebook).filterMap fun r =>
    match fittedModelOf r.2 with
    | some (.kmeans a) => some a.random_state
    | _ => none

/-- The models constructed in a cell. -/
def cellModels (c : Cell) : List Model :=
  c.cores.filterMap fun s => match s with
    | .assignModel _ m => some m
    | _ => none

/-- Modelled from scikit-learn's documented `random_state` semantics: a
fixed integer seed makes the fit reproducible, `None` draws from the
executing process's global random state, so the seed actually used varies
with the environment. -/
def effectiveSeed (a : KMeansArgs) (envSeed : Nat) : Nat :=
  match a.random_state with
  | some s => s
  | none => envSeed

/-! ## The claims -/

/-- Claim C1: the notebook starts exactly the named runs "Kmeans - K=2",
"Kmeans - K=3" and "DBSCAN", and each of them records at least one
parameter (`mlflow.log_param`), at least one metric (`mlflow.log_metric`)
and one model artifact (`mlflow.sklearn.log_model`) before the run is
ended (`mlflow.end_run()`). -/
theorem namedRuns_record_param_metric_model :
    (namedRuns notebook).map Prod.fst = ["Kmeans - K=2", "Kmeans - K=3", "DBSCAN"] ∧
    (namedRuns notebook).all (fun r => recordsBeforeEnd r.2) = true := by
  exact ⟨by decide, by decide⟩

/-- Claim C2 as stated is false: the "Kmeans - K=3" block loads no data
(the data is loaded once, in code cell 2) and makes four logging calls
(`log_param`, two `log_metric`s, `log_model`), not exactly three; the
"DBSCAN" block also makes four. -/
theorem exact_sequence_claim_false :
    (namedRuns notebook).all (fun r => followsLoadFitScoreLogThree r.2) = false ∧
    (bodyCores runBodyK3).countP isLoadData = 0 ∧
    (bodyCores runBodyK3).countP isLogging = 4 ∧
    ("Kmeans - K=3", runBodyK3) ∈ namedRuns notebook := by
  exact ⟨by decide, by decide, by decide, by decide⟩

/-- Claim C2 amended: the data is loaded exactly once, before all model
fitting; each named experiment block follows the sequence fit → score →
log, computing one or two scores and making three or four logging calls
(at least one parameter, at least one metric, exactly one model artifact);
and the sequence is repeated with pairwise different models and
hyperparameters. -/
theorem runBlocks_fit_score_log_sequence :
    notebookCores.countP isLoadData = 1 ∧
    loadBeforeAllFits = true ∧
    (namedRuns notebook).all (fun r => blockFitScoreLogSeq r.2) = true ∧
    runModels = [Model.kmeans ⟨2, none⟩, Model.kmeans ⟨3, none⟩,
      Model.dbscan ⟨⟨5, 1⟩, 5⟩] ∧
    runModels.Nodup := by
  exact ⟨by decide, by decide, by decide, by decide, by decide⟩

/-- Claim C3: the notebook contains no `try/except`, and any exception
raised by the first failing library call propagates out of the notebook
execution unhandled, exactly as raised. -/
theorem no_handler_error_propagates :
    notebookTryCount = 0 ∧
    ∀ (o : Oracle) (e : PyError),
      firstFailure o notebookCores = some e → execNotebook o = Except.error e := by
  refine ⟨by decide, fun o e h => ?_⟩
  rw [execNotebook_eq_execCores]
  exact execCores_of_firstFailure o e notebookCores h

/-- The exception the external library raises when model logging fails
(cf. the recorded `AttributeError` in the notebook's DBSCAN cell output). -/
def modelLoggingFailure : PyError :=
  .attributeError "DBSCAN object has no attribute predict"

/-- An oracle under which the model-logging library call raises and every
other library call succeeds. -/
def failingOracle : Oracle := fun s =>
  if isLogModel s then some modelLoggingFailure else none

/-- Witness for C3: under `failingOracle` the whole notebook execution
aborts with exactly the model-logging exception. -/
theorem no_handler_error_propagates_witness :
    execNotebook failingOracle = Except.error modelLoggingFailure :=
  no_handler_error_propagates.2 failingOracle modelLoggingFailure (by decide)

/-- Claim C4: the only parameters the notebook logs are `value_of_k`,
`min_samples` and `eps`, all with scalar values; the only hyperparameters
its constructed models hold are `n_clusters` (k), `eps` and `min_samples`;
the only scores it computes are silhouette and Davies–Bouldin; and it
computes no score by its own arithmetic. -/
theorem logged_hyperparams_and_scores_exhaustive :
    loggedParamKeys = ["value_of_k", "value_of_k", "min_samples", "eps"] ∧
    loggedParamVals.all isScalar = true ∧
    heldHyperNames = ["eps", "min_samples", "n_clusters", "n_clusters",
      "n_clusters", "eps", "min_samples"] ∧
    scoreFnsUsed = [ScoreFn.silhouette, ScoreFn.silhouette,
      ScoreFn.daviesBouldin, ScoreFn.silhouette] ∧
    notebookCores.countP isArith = 0 := by
  exact ⟨by decide, by decide, by decide, by decide, by decide⟩

/-- Claim C5: every metric value the notebook logs was produced by the
external library's score functions applied to the features and the fitted
model's labels; the labels come from `.fit(features).labels_`; and the
notebook performs no arithmetic of its own on values. -/
theorem metrics_only_from_library_scores :
    metricsFromLibScores [] notebookCores = true ∧
    (namedRuns notebook).all (fun r => labelsFromFit r.2) = true ∧
    notebookCores.countP isArith = 0 := by
  exact ⟨by decide, by decide, by decide⟩

/-- Claim C6: the notebook's only shell invocation is `!mlflow ui`, which
passes no port argument, and the notebook code contains no direct file
write. -/
theorem external_surface_shell_only :
    shellCmds = [["mlflow", "ui"]] ∧
    shellCmds.all (fun c => !hasPortArg c) = true ∧
    notebookCores.countP isWriteFile = 0 := by
  exact ⟨by decide, by decide, by decide⟩

/-- Claim C7 as stated is false: the shell escape `!mlflow ui` in the last
cell runs its command in a child process, so not every operation of the
notebook avoids creating a process. -/
theorem no_process_creation_claim_false :
    notebookCores.all noConcurrencyOp = false ∧
    createsProcess (StmtCore.shell ["mlflow", "ui"]) = true ∧
    StmtCore.shell ["mlflow", "ui"] ∈ notebookCores := by
  exact ⟨by decide, by decide, by decide⟩

/-- Claim C7 amended: no operation of the notebook creates a thread or a
coroutine; the only operation that creates a process is the final
synchronous shell escape `!mlflow ui`; and execution is strictly
sequential — running the notebook is exactly the straight-line execution
of its simple statements in cell order, each completing before the next
begins. -/
theorem sequential_execution_thread_free :
    notebookCores.all (fun s => !createsThread s && !createsCoroutine s) = true ∧
    notebookCores.filter createsProcess = [StmtCore.shell ["mlflow", "ui"]] ∧
    ∀ o : Oracle, execNotebook o = execCores o notebookCores := by
  exact ⟨by decide, by decide, fun o => execNotebook_eq_execCores o⟩

/-- Claim C8: every named run logs its silhouette score under the
misspelled key `silhoutte_score`, and no statement of the notebook logs a
metric under the correctly spelled key `silhouette_score`. -/
theorem silhouette_metric_key_misspelled :
    (namedRuns notebook).all
      (fun r => silhouetteLoggedAs "silhoutte_score" [] (bodyCores r.2)) = true ∧
    notebookCores.all (fun s => !logsMetricKey "silhouette_score" s) = true := by
  exact ⟨by decide, by decide⟩

/-- Claim C9: in every named run the logged parameters equal the
constructor arguments of the fitted model — `value_of_k` = `n_clusters`
(2 and 3), and `min_samples` = 5, `eps` = 0.5 for DBSCAN. -/
theorem logged_params_match_constructor_args :
    (namedRuns notebook).all
      (fun r => match fittedModelOf r.2 with
        | some m => paramsMatchModel m (loggedParamsOf r.2)
        | none => false) = true ∧
    (namedRuns notebook).map (fun r => (r.1, fittedModelOf r.2)) =
      [("Kmeans - K=2", some (Model.kmeans ⟨2, none⟩)),
       ("Kmeans - K=3", some (Model.kmeans ⟨3, none⟩)),
       ("DBSCAN", some (Model.dbscan ⟨⟨5, 1⟩, 5⟩))] := by
  exact ⟨by decide, by decide⟩

/-- Claim C10: the KMeans models of the named runs carry no
`random_state`, while the autolog cell's KMeans fixes `random_state = 42`;
with the seed fixed the effective seed is independent of the environment
(deterministic across executions), and without it the fit outcome is not
guaranteed to be equal across two executions: some outcome function of the
effective seed distinguishes two environments. -/
theorem kmeans_seed_determinism :
    namedRunKMeansSeeds = [none, none] ∧
    cellModels cell4 = [Model.kmeans ⟨3, some 42⟩] ∧
    (∀ e1 e2 : Nat, effectiveSeed ⟨3, some 42⟩ e1 = effectiveSeed ⟨3, some 42⟩ e2) ∧
    ∃ (f : KMeansArgs → Nat → Nat) (e1 e2 : Nat),
      f ⟨2, none⟩ (effectiveSeed ⟨2, none⟩ e1) ≠
        f ⟨2, none⟩ (effectiveSeed ⟨2, none⟩ e2) := by
  exact ⟨by decide, by decide, fun e1 e2 => rfl, fun _ s => s, 0, 1, by decide⟩

end EjemploMlflow
